import Mathlib

/-!
Verification development for the gaze/attention inference core of the
Video-Proctoring repository (`src/core/eye_detector.py`, class `EyeDetector`).

Modelling conventions:
* Pixel coordinates are integers (`int()` casts in the source), so points are `ℤ × ℤ`.
* Python floats are rational numbers, so all float-valued quantities that the
  control flow branches on (EAR samples, gaze vectors, timestamps, scores,
  thresholds) are modelled as `ℚ`; quantities produced by `np.sqrt`
  (Euclidean distances, movement magnitudes) are modelled exactly as `ℝ`.
* Mutable instance attributes of `EyeDetector` are gathered in `DetectorState`;
  each method becomes a function `DetectorState → ... → DetectorState × result`.
* The OpenCV / MediaPipe image-processing stages (`extract_eye_regions`,
  `detect_pupils`, landmark projection) are external observations: a frame is
  represented by the values those stages feed into the stateful core.
-/

namespace EyeDetectorModel

/-- Integer pixel point, as produced by the `int()` casts in the source. -/
abbrev Pt := ℤ × ℤ

/-- Constructor parameters of `EyeDetector.__init__`
    (`ear_threshold=0.25, blink_frames=3, movement_threshold=10`). -/
structure Params where
  ear_threshold : ℚ
  blink_frames : ℕ
  movement_threshold : ℚ

/-- The default constructor arguments. -/
def defaultParams : Params := ⟨1/4, 3, 10⟩

/-- The mutable instance attributes of `EyeDetector` (lines 42-59).
    `prev_pupils` is the `{'left': ..., 'right': ...}` dictionary; the three
    history deques are lists with the oldest element first.  The constant
    `gaze_bounds` dictionary is never read by any method and is omitted. -/
structure DetectorState where
  prev_pupils : Option Pt × Option Pt
  blink_counter : ℕ
  total_blinks : ℕ
  ear_history : List ℚ
  gaze_history : List (ℚ × ℚ)
  movement_history : List ℝ
  looking_away : Bool
  excessive_blinking : Bool
  suspicious_movement : Bool
  last_blink_time : ℚ
  gaze_center_calibrated : Bool
  gaze_center : ℚ × ℚ

/-- The state `__init__` builds; `t0` is the `time.time()` recorded at
    construction into `last_blink_time`. -/
def initState (t0 : ℚ) : DetectorState :=
  ⟨(none, none), 0, 0, [], [], [], false, false, false, t0, false, (0, 0)⟩

/-- Append on a `collections.deque` with `maxlen = cap`: when the deque is at
    capacity the oldest (leftmost) element is silently evicted. -/
def dequeAppend (cap : ℕ) (xs : List α) (x : α) : List α :=
  if xs.length < cap then xs ++ [x] else xs.tail ++ [x]

/-- Python slice `xs[-n:]`: the last `n` elements (all of them when shorter). -/
def listLast (n : ℕ) (xs : List α) : List α := xs.drop (xs.length - n)

/-- The dictionary returned by `detect_blinks` (lines 215-220). -/
structure BlinkResult where
  blink_detected : Bool
  ear : ℚ
  blink_rate : ℚ
  excessive_blinking : Bool

/-- Common tail of `detect_blinks` (lines 209-220), run after the
    counter/total update with the already-appended `ear_history`: the
    excessive-blinking re-evaluation (only once 30 samples are buffered) and
    the result dictionary.  The two `time.time()` calls of one `detect_blinks`
    invocation are modelled as the single timestamp `now`. -/
def blinkFinish (p : Params) (s : DetectorState) (detected : Bool) (avg_ear now : ℚ) :
    DetectorState × BlinkResult :=
  let excessive :=
    if 30 ≤ s.ear_history.length then
      decide (15 < (listLast 30 s.ear_history).countP (fun e => decide (e < p.ear_threshold)))
    else s.excessive_blinking
  ({ s with excessive_blinking := excessive },
   ⟨detected, avg_ear,
    (s.total_blinks : ℚ) / max 1 ((now - s.last_blink_time) / 60), excessive⟩)

/-- `detect_blinks` (lines 187-220), taking as input the averaged EAR sample
    `avg_ear = (left_ear + right_ear) / 2` of the current frame and the frame
    timestamp `now`.  Below threshold the consecutive-low counter grows; at or
    above threshold a blink is emitted exactly when the counter reached
    `blink_frames`, and the counter resets to 0 either way. -/
def detect_blinks (p : Params) (s : DetectorState) (avg_ear now : ℚ) :
    DetectorState × BlinkResult :=
  let hist := dequeAppend 30 s.ear_history avg_ear
  if avg_ear < p.ear_threshold then
    blinkFinish p { s with ear_history := hist, blink_counter := s.blink_counter + 1 }
      false avg_ear now
  else if p.blink_frames ≤ s.blink_counter then
    blinkFinish p { s with ear_history := hist, blink_counter := 0,
                           total_blinks := s.total_blinks + 1, last_blink_time := now }
      true avg_ear now
  else
    blinkFinish p { s with ear_history := hist, blink_counter := 0 } false avg_ear now

/-- Feeding a sequence of averaged EAR samples through `detect_blinks`
    (all at timestamp 0; the timestamp does not influence the blink logic). -/
def blinkRunEars (p : Params) (s : DetectorState) (ears : List ℚ) : DetectorState :=
  ears.foldl (fun st e => (detect_blinks p st e 0).1) s

/-- `calibrate_center_gaze` (lines 247-250): store the gaze vector as the
    reference center and set the calibrated flag. -/
def calibrate_center_gaze (s : DetectorState) (g : ℚ × ℚ) : DetectorState :=
  { s with gaze_center := g, gaze_center_calibrated := true }

/-- `is_looking_away` (lines 252-268).  Uncalibrated: early `return False`
    without touching `self.looking_away`.  Calibrated: deviation from the
    stored center against the hardcoded thresholds 40 (x) and 30 (y), with the
    `looking_away` attribute updated to the returned value. -/
def is_looking_away (s : DetectorState) (g : ℚ × ℚ) : DetectorState × Bool :=
  if s.gaze_center_calibrated = false then (s, false)
  else
    let away := decide (40 < |g.1 - s.gaze_center.1| ∨ 30 < |g.2 - s.gaze_center.2|)
    ({ s with looking_away := away }, away)

/-- `calculate_distance` (lines 329-331): Euclidean distance between two
    pixel points via `np.sqrt`. -/
noncomputable def calculate_distance (p q : Pt) : ℝ :=
  Real.sqrt (((p.1 - q.1 : ℤ) : ℝ) ^ 2 + ((p.2 - q.2 : ℤ) : ℝ) ^ 2)

/-- `calculate_ear` (lines 159-185) as a function of the list of valid
    projected pixel points (the projection of the duck-typed MediaPipe
    landmarks to pixel space is external).  With fewer than 6 points, or a
    zero horizontal corner distance, the result is 0; otherwise the classic
    Eye-Aspect-Ratio `(vertical_1 + vertical_2) / (2 * horizontal)`. -/
noncomputable def calculate_ear (points : List Pt) : ℝ :=
  if h : points.length < 6 then 0
  else
    let vertical_1 := calculate_distance (points.get ⟨1, by omega⟩) (points.get ⟨5, by omega⟩)
    let vertical_2 := calculate_distance (points.get ⟨2, by omega⟩) (points.get ⟨4, by omega⟩)
    let horizontal := calculate_distance (points.get ⟨0, by omega⟩) (points.get ⟨3, by omega⟩)
    if 0 < horizontal then (vertical_1 + vertical_2) / (2 * horizontal) else 0

/-- The dictionary returned by `track_eye_movement`. -/
structure MovementResult where
  movement_magnitude : ℝ
  suspicious : Bool

open Classical

/-- `track_eye_movement` (lines 270-305), on the current frame's pupil pair
    (left, right).  If either previous pupil is missing (bootstrap), store the
    current pair and report zero magnitude / not suspicious.  Otherwise average
    the per-eye displacement over the eyes whose pupil is present in both
    frames; when at least one eye qualifies, append the average to the
    90-sample ring buffer, re-evaluate the suspicious flag once 30 samples are
    buffered, and update the previous-pupil state; with no qualifying eye,
    leave all state untouched and report zero magnitude / not suspicious. -/
noncomputable def track_eye_movement (p : Params) (s : DetectorState)
    (curr : Option Pt × Option Pt) : DetectorState × MovementResult :=
  if s.prev_pupils.1 = none ∨ s.prev_pupils.2 = none then
    ({ s with prev_pupils := curr }, ⟨0, false⟩)
  else
    let moves : List ℝ :=
      ([(curr.1, s.prev_pupils.1), (curr.2, s.prev_pupils.2)]).filterMap
        (fun cp => match cp.1, cp.2 with
          | some c, some pr => some (calculate_distance c pr)
          | _, _ => none)
    if moves.length = 0 then (s, ⟨0, false⟩)
    else
      let avg_movement := moves.sum / (moves.length : ℝ)
      let hist := dequeAppend 90 s.movement_history avg_movement
      let recent := listLast 30 hist
      let susp : Bool :=
        if 30 ≤ hist.length then
          if ((p.movement_threshold : ℝ) * 2 < recent.sum / (recent.length : ℝ)) then true
          else false
        else s.suspicious_movement
      ({ s with prev_pupils := curr, movement_history := hist, suspicious_movement := susp },
       ⟨avg_movement, susp⟩)

/-- `calculate_attention_score` (lines 307-327): start from 100, subtract 30
    when `is_looking_away` (which also updates `self.looking_away`), 20 for
    excessive blinking, 25 for suspicious movement, 15 when the blink rate is
    above 30 or below 5, and clamp at 0 from below. -/
def calculate_attention_score (s : DetectorState) (blink : BlinkResult)
    (gaze : ℚ × ℚ) (movement : MovementResult) : DetectorState × ℚ :=
  let r := is_looking_away s gaze
  let score1 : ℚ := 100
  let score2 := if r.2 then score1 - 30 else score1
  let score3 := if blink.excessive_blinking then score2 - 20 else score2
  let score4 := if movement.suspicious then score3 - 25 else score3
  let score5 := if 30 < blink.blink_rate ∨ blink.blink_rate < 5 then score4 - 15 else score4
  (r.1, max 0 score5)

/-- The `EyeMetrics` dataclass (lines 8-16), as constructed at lines 369-376:
    `blink_detected`, `movement_magnitude` and `attention_score` are always
    filled with zero/false placeholders there. -/
structure EyeMetrics where
  ear : ℚ
  gaze_direction : ℚ × ℚ
  pupil_center : Pt
  blink_detected : Bool
  movement_magnitude : ℚ
  attention_score : ℚ

/-- The per-frame flag dictionary. -/
structure Flags where
  looking_away : Bool
  excessive_blinking : Bool
  suspicious_movement : Bool

/-- The `results` dictionary `process_frame` returns (lines 338-348, 395-407).
    `gaze_direction` and `movement_data` are keys only added by the final
    `results.update`, hence `Option`. -/
structure FrameResult where
  left_eye : Option EyeMetrics
  right_eye : Option EyeMetrics
  blink_data : Option BlinkResult
  attention_score : ℚ
  flags : Flags
  gaze_direction : Option (ℚ × ℚ)
  movement_data : Option MovementResult

/-- The `results` dictionary as initialised at lines 338-348, before any stage
    ran: both eyes absent, no blink data, attention score 0, all flags false,
    no gaze/movement keys. -/
def zeroedResult : FrameResult :=
  ⟨none, none, none, 0, ⟨false, false, false⟩, none, none⟩

/-- What the external image-processing stages observe for one eye in one
    frame: the pupil found by `detect_pupils` (if any) and the normalized gaze
    vector of `calculate_gaze_direction`. -/
structure EyeObs where
  pupil : Option Pt
  gaze_direction : ℚ × ℚ

/-- One frame's observation, i.e. the values the pure OpenCV/MediaPipe stages
    of `process_frame` feed into the stateful core: the per-eye data when
    `extract_eye_regions` produced that eye, the two per-eye EAR values
    computed from the landmarks by `calculate_ear`, and the frame timestamp. -/
structure FrameObs where
  left : Option EyeObs
  right : Option EyeObs
  left_ear : ℚ
  right_ear : ℚ
  now : ℚ

/-- The stages of `process_frame`'s `try` block at which an unexpected
    exception may be raised: the image-processing block (eye-region
    extraction, pupils, gaze, per-eye EAR — lines 352-376), `detect_blinks`
    (line 379), `track_eye_movement` (line 382), and the gaze-average /
    attention-score block (lines 385-392). -/
inductive Stage
  | extract
  | blinks
  | movement
  | attention
deriving DecidableEq

/-- The frame-level average gaze direction (lines 384-389): the mean of the
    gaze vectors of the eyes that produced metrics ((0, 0) when neither did;
    every produced gaze vector participates, Python tuples being truthy). -/
def frame_avg_gaze (obs : FrameObs) : ℚ × ℚ :=
  let gazes : List (ℚ × ℚ) :=
    (match obs.left with | some eo => [eo.gaze_direction] | none => []) ++
    (match obs.right with | some eo => [eo.gaze_direction] | none => [])
  if gazes.length = 0 then (0, 0)
  else ((gazes.map Prod.fst).sum / gazes.length, (gazes.map Prod.snd).sum / gazes.length)

/-- `process_frame` (lines 333-412) with fault injection: `fault = some st`
    means an unexpected exception is raised on entry to stage `st`, so the
    state updates of the stages that already completed are kept, the
    exception is caught by the `except` clause, and the initial zeroed
    `results` dictionary is returned; `fault = none` is the normal path. -/
noncomputable def process_frame (p : Params) (s : DetectorState) (obs : FrameObs)
    (fault : Option Stage) : DetectorState × FrameResult :=
  if fault = some Stage.extract then (s, zeroedResult) else
  let curr_pupils : Option Pt × Option Pt :=
    (obs.left.bind EyeObs.pupil, obs.right.bind EyeObs.pupil)
  let leftMetrics : Option EyeMetrics :=
    obs.left.map (fun eo =>
      ⟨obs.left_ear, eo.gaze_direction, eo.pupil.getD (0, 0), false, 0, 0⟩)
  let rightMetrics : Option EyeMetrics :=
    obs.right.map (fun eo =>
      ⟨obs.right_ear, eo.gaze_direction, eo.pupil.getD (0, 0), false, 0, 0⟩)
  if fault = some Stage.blinks then (s, zeroedResult) else
  let sb := detect_blinks p s ((obs.left_ear + obs.right_ear) / 2) obs.now
  if fault = some Stage.movement then (sb.1, zeroedResult) else
  let sm := track_eye_movement p sb.1 curr_pupils
  let avg_gaze : ℚ × ℚ := frame_avg_gaze obs
  if fault = some Stage.attention then (sm.1, zeroedResult) else
  let sa := calculate_attention_score sm.1 sb.2 avg_gaze sm.2
  (sa.1,
   ⟨leftMetrics, rightMetrics, some sb.2, sa.2,
    ⟨sa.1.looking_away, sa.1.excessive_blinking, sa.1.suspicious_movement⟩,
    some avg_gaze, some sm.2⟩)

/-- The dictionary returned by `get_proctoring_summary` (lines 414-426). -/
structure Summary where
  total_blinks : ℕ
  average_ear : ℚ
  movement_pattern : List ℝ
  gaze_pattern : List (ℚ × ℚ)
  flags_triggered : Flags

/-- `get_proctoring_summary` (lines 414-426): empty histories yield 0 / `[]`
    (Python truthiness of an empty deque), otherwise the mean EAR and the last
    30 movement / gaze samples. -/
def get_proctoring_summary (s : DetectorState) : Summary :=
  ⟨s.total_blinks,
   match s.ear_history with
   | [] => 0
   | es => es.sum / (es.length : ℚ),
   match s.movement_history with
   | [] => []
   | ms => listLast 30 ms,
   match s.gaze_history with
   | [] => []
   | gs => listLast 30 gs,
   ⟨s.looking_away, s.excessive_blinking, s.suspicious_movement⟩⟩

/-- An externally triggered operation on one `EyeDetector` instance: one
    `process_frame` call (with an optional injected stage fault) or one
    `calibrate_center_gaze` call. -/
inductive Op
  | frame (obs : FrameObs) (fault : Option Stage)
  | calibrate (g : ℚ × ℚ)

/-- Running a sequence of operations from a given state. -/
noncomputable def runOps (p : Params) (s : DetectorState) (ops : List Op) : DetectorState :=
  ops.foldl
    (fun st op =>
      match op with
      | Op.frame obs fault => (process_frame p st obs fault).1
      | Op.calibrate g => calibrate_center_gaze st g)
    s

/-! Helper lemmas about single blink-detection steps. -/

lemma blinkFinish_total_blinks (p : Params) (s : DetectorState) (d : Bool) (e now : ℚ) :
    (blinkFinish p s d e now).1.total_blinks = s.total_blinks := rfl

lemma blinkFinish_blink_counter (p : Params) (s : DetectorState) (d : Bool) (e now : ℚ) :
    (blinkFinish p s d e now).1.blink_counter = s.blink_counter := rfl

lemma blinkFinish_last_blink_time (p : Params) (s : DetectorState) (d : Bool) (e now : ℚ) :
    (blinkFinish p s d e now).1.last_blink_time = s.last_blink_time := rfl

lemma blinkFinish_ear_history (p : Params) (s : DetectorState) (d : Bool) (e now : ℚ) :
    (blinkFinish p s d e now).1.ear_history = s.ear_history := rfl

lemma blinkFinish_gaze_history (p : Params) (s : DetectorState) (d : Bool) (e now : ℚ) :
    (blinkFinish p s d e now).1.gaze_history = s.gaze_history := rfl

lemma blinkFinish_movement_history (p : Params) (s : DetectorState) (d : Bool) (e now : ℚ) :
    (blinkFinish p s d e now).1.movement_history = s.movement_history := rfl

lemma blinkFinish_detected (p : Params) (s : DetectorState) (d : Bool) (e now : ℚ) :
    (blinkFinish p s d e now).2.blink_detected = d := rfl

lemma blinkFinish_rate (p : Params) (s : DetectorState) (d : Bool) (e now : ℚ) :
    (blinkFinish p s d e now).2.blink_rate =
      (s.total_blinks : ℚ) / max 1 ((now - s.last_blink_time) / 60) := rfl

lemma detect_blinks_low (p : Params) (s : DetectorState) (e now : ℚ)
    (h : e < p.ear_threshold) :
    (detect_blinks p s e now).1.total_blinks = s.total_blinks ∧
    (detect_blinks p s e now).2.blink_detected = false ∧
    (detect_blinks p s e now).1.blink_counter = s.blink_counter + 1 := by
  simp [detect_blinks, blinkFinish, h]

lemma detect_blinks_high_nocount (p : Params) (s : DetectorState) (e now : ℚ)
    (h1 : p.ear_threshold ≤ e) (h2 : s.blink_counter < p.blink_frames) :
    (detect_blinks p s e now).1.total_blinks = s.total_blinks ∧
    (detect_blinks p s e now).1.blink_counter = 0 := by
  simp [detect_blinks, blinkFinish, not_lt.mpr h1, Nat.not_le.mpr h2]

lemma blinkRunEars_lows (p : Params) :
    ∀ (lows : List ℚ), (∀ x ∈ lows, x < p.ear_threshold) →
      ∀ s : DetectorState,
        (blinkRunEars p s lows).total_blinks = s.total_blinks ∧
        (blinkRunEars p s lows).blink_counter = s.blink_counter + lows.length := by
  intro lows
  induction lows with
  | nil => intro _ s; simp [blinkRunEars]
  | cons a as ih =>
    intro h s
    have ha : a < p.ear_threshold := h a (List.mem_cons_self a as)
    have has : ∀ x ∈ as, x < p.ear_threshold := fun x hx => h x (List.mem_cons_of_mem a hx)
    have hstep := detect_blinks_low p s a 0 ha
    have hs : blinkRunEars p s (a :: as) = blinkRunEars p (detect_blinks p s a 0).1 as := by
      simp [blinkRunEars]
    rw [hs]
    rcases ih has (detect_blinks p s a 0).1 with ⟨h1, h2⟩
    refine ⟨by rw [h1, hstep.1], by rw [h2, hstep.2.2]; simp; omega⟩

/-- C1: a blink is counted exactly on the release edge: a sample below the
    threshold only grows the consecutive-low counter and never increments the
    blink total; a sample at or above the threshold increments the total (and
    reports `blink_detected`) precisely when the counter has reached
    `blink_frames`, and resets the counter to 0 either way; in particular
    `blink_frames - 1` below-threshold samples followed by one at-or-above
    sample yield zero blinks and counter 0. -/
theorem C1_blink_debounce :
    (∀ (p : Params) (s : DetectorState) (e now : ℚ), e < p.ear_threshold →
       (detect_blinks p s e now).1.total_blinks = s.total_blinks ∧
       (detect_blinks p s e now).2.blink_detected = false ∧
       (detect_blinks p s e now).1.blink_counter = s.blink_counter + 1) ∧
    (∀ (p : Params) (s : DetectorState) (e now : ℚ),
       ((detect_blinks p s e now).2.blink_detected = true ∧
        (detect_blinks p s e now).1.total_blinks = s.total_blinks + 1) ↔
       (p.ear_threshold ≤ e ∧ p.blink_frames ≤ s.blink_counter)) ∧
    (∀ (p : Params) (s : DetectorState) (lows : List ℚ) (high : ℚ),
       1 ≤ p.blink_frames → s.blink_counter = 0 →
       lows.length = p.blink_frames - 1 →
       (∀ x ∈ lows, x < p.ear_threshold) → p.ear_threshold ≤ high →
       (blinkRunEars p s (lows ++ [high])).total_blinks = s.total_blinks ∧
       (blinkRunEars p s (lows ++ [high])).blink_counter = 0) := by
  refine ⟨detect_blinks_low, ?_, ?_⟩
  · intro p s e now
    simp only [detect_blinks]
    split_ifs with h1 h2
    · simp [blinkFinish_detected, blinkFinish_total_blinks, not_le.mpr h1]
    · simp [blinkFinish_detected, blinkFinish_total_blinks, not_lt.mp h1, h2]
    · simp [blinkFinish_detected, blinkFinish_total_blinks, h2]
  · intro p s lows high hframes hc hlen hlow hhigh
    have hmid := blinkRunEars_lows p lows hlow s
    have hsplit : blinkRunEars p s (lows ++ [high]) =
        (detect_blinks p (blinkRunEars p s lows) high 0).1 := by
      simp [blinkRunEars, List.foldl_append]
    have hcount : (blinkRunEars p s lows).blink_counter < p.blink_frames := by
      rw [hmid.2, hc]; omega
    have hstep := detect_blinks_high_nocount p (blinkRunEars p s lows) high 0 hhigh hcount
    rw [hsplit]
    exact ⟨by rw [hstep.1, hmid.1], hstep.2⟩

/-- Witness for C1: with the default parameters (threshold 1/4, 3 frames),
    two low samples followed by a high one yield zero blinks and counter 0. -/
theorem C1_blink_debounce_witness :
    (blinkRunEars defaultParams (initState 0) [1/10, 2/10, 3/10]).total_blinks = 0 ∧
    (blinkRunEars defaultParams (initState 0) [1/10, 2/10, 3/10]).blink_counter = 0 := by
  have h := C1_blink_debounce.2.2 defaultParams (initState 0) [1/10, 2/10] (3/10)
    (by norm_num [defaultParams]) rfl (by norm_num [defaultParams])
    (by intro x hx; fin_cases hx <;> norm_num [defaultParams])
    (by norm_num [defaultParams])
  simpa [initState] using h

/-- C3: before any calibration commit `is_looking_away` returns false for
    every gaze vector; once `calibrate_center_gaze` has stored a center
    (cx, cy), it returns true exactly when the horizontal deviation exceeds
    40 or the vertical deviation exceeds 30. -/
theorem C3_looking_away_calibration :
    (∀ (s : DetectorState) (g : ℚ × ℚ), s.gaze_center_calibrated = false →
       (is_looking_away s g).2 = false) ∧
    (∀ (s : DetectorState) (c g : ℚ × ℚ),
       (is_looking_away (calibrate_center_gaze s c) g).2 = true ↔
         (40 < |g.1 - c.1| ∨ 30 < |g.2 - c.2|)) := by
  constructor
  · intro s g h
    simp [is_looking_away, h]
  · intro s c g
    simp [is_looking_away, calibrate_center_gaze]

/-- Witness for C3: the freshly constructed (uncalibrated) detector reports
    not-looking-away even for the extreme gaze vector (1000, 1000). -/
theorem C3_looking_away_calibration_witness :
    (is_looking_away (initState 0) (1000, 1000)).2 = false :=
  C3_looking_away_calibration.1 (initState 0) (1000, 1000) rfl

/-- C4: the attention score is 100 minus independent additive deductions of
    30 (looking away), 20 (excessive blinking), 25 (suspicious movement) and
    15 (blink rate outside [5, 30]), clamped at 0 from below; for the flag
    combination looking-away + excessive-blinking with rate 15 it equals 50. -/
theorem C4_attention_score_formula :
    (∀ (s : DetectorState) (blink : BlinkResult) (gaze : ℚ × ℚ)
       (movement : MovementResult),
       (calculate_attention_score s blink gaze movement).2 =
         max 0 (100 - (if (is_looking_away s gaze).2 then 30 else 0)
                    - (if blink.excessive_blinking then 20 else 0)
                    - (if movement.suspicious then 25 else 0)
                    - (if 30 < blink.blink_rate ∨ blink.blink_rate < 5 then 15 else 0))) ∧
    (calculate_attention_score (calibrate_center_gaze (initState 0) (0, 0))
       ⟨false, 0, 15, true⟩ (50, 0) ⟨0, false⟩).2 = 50 := by
  constructor
  · intro s blink gaze movement
    simp only [calculate_attention_score]
    split_ifs <;> norm_num
  · norm_num [calculate_attention_score, is_looking_away, calibrate_center_gaze, initState]

/-- C9: whatever the flags and blink rate, the attention score is at least
    10: the four deductions total at most 90 from the base 100, so the lower
    clamp at 0 is never binding and no score in [0, 10) occurs. -/
theorem C9_attention_score_at_least_ten (s : DetectorState) (blink : BlinkResult)
    (gaze : ℚ × ℚ) (movement : MovementResult) :
    10 ≤ (calculate_attention_score s blink gaze movement).2 := by
  simp only [calculate_attention_score]
  rw [le_max_iff]
  right
  split_ifs <;> norm_num

/-- C5 fails as stated: the returned blink rate divides by the elapsed time
    clamped below at one minute, not by the raw elapsed minutes.  With 2 total
    blinks and 30 seconds since the last blink the code returns 2, while the
    claimed formula gives 4. -/
theorem C5_blink_rate_counterexample :
    (detect_blinks defaultParams
        ⟨(none, none), 0, 2, [], [], [], false, false, false, 0, false, (0, 0)⟩
        (3/10) 30).2.blink_rate ≠
      ((detect_blinks defaultParams
          ⟨(none, none), 0, 2, [], [], [], false, false, false, 0, false, (0, 0)⟩
          (3/10) 30).1.total_blinks : ℚ) /
        ((30 - (detect_blinks defaultParams
            ⟨(none, none), 0, 2, [], [], [], false, false, false, 0, false, (0, 0)⟩
            (3/10) 30).1.last_blink_time) / 60) := by
  simp only [detect_blinks, blinkFinish, defaultParams]
  norm_num [max_def, dequeAppend, listLast]

/-- C5 amended: the returned blink rate is the (post-update) total blink
    count divided by `max 1` of the minutes elapsed since the (post-update)
    last blink timestamp. -/
theorem C5_blink_rate_amended (p : Params) (s : DetectorState) (e now : ℚ) :
    (detect_blinks p s e now).2.blink_rate =
      ((detect_blinks p s e now).1.total_blinks : ℚ) /
        max 1 ((now - (detect_blinks p s e now).1.last_blink_time) / 60) := by
  simp only [detect_blinks, blinkFinish]
  split_ifs <;> simp

/-! Helper lemmas about Euclidean distances and the EAR computation. -/

lemma calculate_distance_eval (p q : Pt) (d : ℝ) (h0 : 0 ≤ d)
    (h : ((p.1 - q.1 : ℤ) : ℝ) ^ 2 + ((p.2 - q.2 : ℤ) : ℝ) ^ 2 = d ^ 2) :
    calculate_distance p q = d := by
  rw [calculate_distance, h, Real.sqrt_sq h0]

lemma calculate_ear_cons (p0 p1 p2 p3 p4 p5 : Pt) (rest : List Pt) :
    calculate_ear (p0 :: p1 :: p2 :: p3 :: p4 :: p5 :: rest) =
      if 0 < calculate_distance p0 p3 then
        (calculate_distance p1 p5 + calculate_distance p2 p4) /
          (2 * calculate_distance p0 p3)
      else 0 := by
  have h6 : ¬ (p0 :: p1 :: p2 :: p3 :: p4 :: p5 :: rest).length < 6 := by
    simp only [List.length_cons]; omega
  rw [calculate_ear, dif_neg h6]
  rfl

/-- C7: on at least six valid points with positive horizontal corner
    distance, `calculate_ear` returns
    `(vertical_1 + vertical_2) / (2 * horizontal)` with Euclidean distances;
    it returns 0 when the horizontal distance is 0 or fewer than six points
    are available; and on the synthetic eye with vertical distances 4 and 4
    and horizontal distance 20 it returns exactly 0.2. -/
theorem C7_ear_formula :
    (∀ (p0 p1 p2 p3 p4 p5 : Pt) (rest : List Pt),
       (0 < calculate_distance p0 p3 →
          calculate_ear (p0 :: p1 :: p2 :: p3 :: p4 :: p5 :: rest) =
            (calculate_distance p1 p5 + calculate_distance p2 p4) /
              (2 * calculate_distance p0 p3)) ∧
       (calculate_distance p0 p3 = 0 →
          calculate_ear (p0 :: p1 :: p2 :: p3 :: p4 :: p5 :: rest) = 0)) ∧
    (∀ points : List Pt, points.length < 6 → calculate_ear points = 0) ∧
    calculate_ear [(0, 0), (6, 2), (14, 2), (20, 0), (14, -2), (6, -2)] = 1 / 5 := by
  refine ⟨?_, ?_, ?_⟩
  · intro p0 p1 p2 p3 p4 p5 rest
    rw [calculate_ear_cons]
    constructor
    · intro h; rw [if_pos h]
    · intro h; rw [h]; simp
  · intro points h
    rw [calculate_ear, dif_pos h]
  · have h20 : calculate_distance ((0 : ℤ), (0 : ℤ)) (20, 0) = 20 :=
      calculate_distance_eval _ _ 20 (by norm_num) (by push_cast; norm_num)
    have d1 : calculate_distance ((6 : ℤ), (2 : ℤ)) (6, -2) = 4 :=
      calculate_distance_eval _ _ 4 (by norm_num) (by push_cast; norm_num)
    have d2 : calculate_distance ((14 : ℤ), (2 : ℤ)) (14, -2) = 4 :=
      calculate_distance_eval _ _ 4 (by norm_num) (by push_cast; norm_num)
    rw [calculate_ear_cons, if_pos (by rw [h20]; norm_num), d1, d2, h20]
    norm_num

/-- Witness for C7: the synthetic eye's EAR is the closed-form ratio of its
    actual Euclidean point distances. -/
theorem C7_ear_formula_witness :
    calculate_ear [(0, 0), (6, 2), (14, 2), (20, 0), (14, -2), (6, -2)] =
      (calculate_distance (6, 2) (6, -2) + calculate_distance (14, 2) (14, -2)) /
        (2 * calculate_distance (0, 0) (20, 0)) := by
  have h20 : calculate_distance ((0 : ℤ), (0 : ℤ)) (20, 0) = 20 :=
    calculate_distance_eval _ _ 20 (by norm_num) (by push_cast; norm_num)
  exact (C7_ear_formula.1 (0, 0) (6, 2) (14, 2) (20, 0) (14, -2) (6, -2) []).1
    (by rw [h20]; norm_num)

/-- C6: once a previous pupil pair is recorded, the per-eye Euclidean
    displacement is averaged over exactly the eyes whose pupil is present in
    both the current and the previous frame (a missing eye is excluded, not
    counted as zero), the average is appended to the 90-sample ring buffer,
    and the previous-pupil state becomes the current pupils. -/
theorem C6_movement_tracking (p : Params) (s : DetectorState) (prevL prevR : Pt)
    (hprev : s.prev_pupils = (some prevL, some prevR)) :
    (∀ cL cR : Pt,
       (track_eye_movement p s (some cL, some cR)).2.movement_magnitude =
         (calculate_distance cL prevL + calculate_distance cR prevR) / 2 ∧
       (track_eye_movement p s (some cL, some cR)).1.movement_history =
         dequeAppend 90 s.movement_history
           ((calculate_distance cL prevL + calculate_distance cR prevR) / 2) ∧
       (track_eye_movement p s (some cL, some cR)).1.prev_pupils = (some cL, some cR)) ∧
    (∀ cL : Pt,
       (track_eye_movement p s (some cL, none)).2.movement_magnitude =
         calculate_distance cL prevL ∧
       (track_eye_movement p s (some cL, none)).1.movement_history =
         dequeAppend 90 s.movement_history (calculate_distance cL prevL) ∧
       (track_eye_movement p s (some cL, none)).1.prev_pupils = (some cL, none)) ∧
    (∀ cR : Pt,
       (track_eye_movement p s (none, some cR)).2.movement_magnitude =
         calculate_distance cR prevR ∧
       (track_eye_movement p s (none, some cR)).1.movement_history =
         dequeAppend 90 s.movement_history (calculate_distance cR prevR) ∧
       (track_eye_movement p s (none, some cR)).1.prev_pupils = (none, some cR)) := by
  refine ⟨?_, ?_, ?_⟩
  · intro cL cR
    simp [track_eye_movement, hprev]
  · intro cL
    simp [track_eye_movement, hprev]
  · intro cR
    simp [track_eye_movement, hprev]

/-- Witness for C6: with previous pupils at (0,0) and (10,0) and only the
    left pupil found at (3,4), the recorded movement is the left-eye distance
    alone — the missing right eye does not drag the average down. -/
theorem C6_movement_tracking_witness :
    (track_eye_movement defaultParams
        ⟨(some (0, 0), some (10, 0)), 0, 0, [], [], [], false, false, false, 0, false, (0, 0)⟩
        (some (3, 4), none)).2.movement_magnitude = calculate_distance (3, 4) (0, 0) ∧
    (track_eye_movement defaultParams
        ⟨(some (0, 0), some (10, 0)), 0, 0, [], [], [], false, false, false, 0, false, (0, 0)⟩
        (some (3, 4), none)).1.movement_history =
      dequeAppend 90 [] (calculate_distance (3, 4) (0, 0)) ∧
    (track_eye_movement defaultParams
        ⟨(some (0, 0), some (10, 0)), 0, 0, [], [], [], false, false, false, 0, false, (0, 0)⟩
        (some (3, 4), none)).1.prev_pupils = (some (3, 4), none) :=
  (C6_movement_tracking defaultParams
    ⟨(some (0, 0), some (10, 0)), 0, 0, [], [], [], false, false, false, 0, false, (0, 0)⟩
    (0, 0) (10, 0) rfl).2.1 (3, 4)

/-! Helper lemmas about how each stage touches the persistent history
    buffers. -/

lemma detect_blinks_ear_history (p : Params) (s : DetectorState) (e now : ℚ) :
    (detect_blinks p s e now).1.ear_history = dequeAppend 30 s.ear_history e := by
  simp only [detect_blinks]
  split_ifs <;> rw [blinkFinish_ear_history]

lemma detect_blinks_gaze_history (p : Params) (s : DetectorState) (e now : ℚ) :
    (detect_blinks p s e now).1.gaze_history = s.gaze_history := by
  simp only [detect_blinks]
  split_ifs <;> rw [blinkFinish_gaze_history]

lemma detect_blinks_movement_history (p : Params) (s : DetectorState) (e now : ℚ) :
    (detect_blinks p s e now).1.movement_history = s.movement_history := by
  simp only [detect_blinks]
  split_ifs <;> rw [blinkFinish_movement_history]

lemma track_eye_movement_ear_history (p : Params) (s : DetectorState)
    (curr : Option Pt × Option Pt) :
    (track_eye_movement p s curr).1.ear_history = s.ear_history := by
  simp only [track_eye_movement]
  split_ifs <;> rfl

lemma track_eye_movement_gaze_history (p : Params) (s : DetectorState)
    (curr : Option Pt × Option Pt) :
    (track_eye_movement p s curr).1.gaze_history = s.gaze_history := by
  simp only [track_eye_movement]
  split_ifs <;> rfl

lemma track_eye_movement_movement_history (p : Params) (s : DetectorState)
    (curr : Option Pt × Option Pt) :
    (track_eye_movement p s curr).1.movement_history = s.movement_history ∨
    ∃ a, (track_eye_movement p s curr).1.movement_history =
      dequeAppend 90 s.movement_history a := by
  simp only [track_eye_movement]
  split_ifs <;> first
    | exact Or.inl rfl
    | exact Or.inr ⟨_, rfl⟩

lemma calculate_attention_score_histories (s : DetectorState) (blink : BlinkResult)
    (gaze : ℚ × ℚ) (movement : MovementResult) :
    (calculate_attention_score s blink gaze movement).1.ear_history = s.ear_history ∧
    (calculate_attention_score s blink gaze movement).1.gaze_history = s.gaze_history ∧
    (calculate_attention_score s blink gaze movement).1.movement_history =
      s.movement_history := by
  simp only [calculate_attention_score, is_looking_away]
  split_ifs <;> exact ⟨rfl, rfl, rfl⟩

lemma process_frame_fault_movement_state (p : Params) (s : DetectorState)
    (obs : FrameObs) :
    (process_frame p s obs (some Stage.movement)).1 =
      (detect_blinks p s ((obs.left_ear + obs.right_ear) / 2) obs.now).1 := rfl

lemma process_frame_fault_attention_state (p : Params) (s : DetectorState)
    (obs : FrameObs) :
    (process_frame p s obs (some Stage.attention)).1 =
      (track_eye_movement p
        (detect_blinks p s ((obs.left_ear + obs.right_ear) / 2) obs.now).1
        (obs.left.bind EyeObs.pupil, obs.right.bind EyeObs.pupil)).1 := rfl

lemma process_frame_none_state (p : Params) (s : DetectorState) (obs : FrameObs) :
    (process_frame p s obs none).1 =
      (calculate_attention_score
        (track_eye_movement p
          (detect_blinks p s ((obs.left_ear + obs.right_ear) / 2) obs.now).1
          (obs.left.bind EyeObs.pupil, obs.right.bind EyeObs.pupil)).1
        (detect_blinks p s ((obs.left_ear + obs.right_ear) / 2) obs.now).2
        (frame_avg_gaze obs)
        (track_eye_movement p
          (detect_blinks p s ((obs.left_ear + obs.right_ear) / 2) obs.now).1
          (obs.left.bind EyeObs.pupil, obs.right.bind EyeObs.pupil)).2).1 := rfl

lemma process_frame_histories (p : Params) (s : DetectorState) (obs : FrameObs)
    (fault : Option Stage) :
    ((process_frame p s obs fault).1.ear_history = s.ear_history ∨
     (process_frame p s obs fault).1.ear_history =
       dequeAppend 30 s.ear_history ((obs.left_ear + obs.right_ear) / 2)) ∧
    (process_frame p s obs fault).1.gaze_history = s.gaze_history ∧
    ((process_frame p s obs fault).1.movement_history = s.movement_history ∨
     ∃ a, (process_frame p s obs fault).1.movement_history =
       dequeAppend 90 s.movement_history a) := by
  rcases fault with _ | st
  · rw [process_frame_none_state]
    refine ⟨Or.inr (by
        rw [(calculate_attention_score_histories _ _ _ _).1,
          track_eye_movement_ear_history, detect_blinks_ear_history]), ?_, ?_⟩
    · rw [(calculate_attention_score_histories _ _ _ _).2.1,
        track_eye_movement_gaze_history, detect_blinks_gaze_history]
    · rw [(calculate_attention_score_histories _ _ _ _).2.2]
      rcases track_eye_movement_movement_history p
          (detect_blinks p s ((obs.left_ear + obs.right_ear) / 2) obs.now).1
          (obs.left.bind EyeObs.pupil, obs.right.bind EyeObs.pupil) with h | ⟨a, h⟩
      · rw [h, detect_blinks_movement_history]; exact Or.inl rfl
      · rw [h, detect_blinks_movement_history]; exact Or.inr ⟨a, rfl⟩
  · cases st
    · exact ⟨Or.inl rfl, rfl, Or.inl rfl⟩
    · exact ⟨Or.inl rfl, rfl, Or.inl rfl⟩
    · rw [process_frame_fault_movement_state]
      exact ⟨Or.inr (detect_blinks_ear_history p s _ _),
        detect_blinks_gaze_history p s _ _,
        Or.inl (detect_blinks_movement_history p s _ _)⟩
    · rw [process_frame_fault_attention_state]
      refine ⟨Or.inr (by rw [track_eye_movement_ear_history, detect_blinks_ear_history]),
        by rw [track_eye_movement_gaze_history, detect_blinks_gaze_history], ?_⟩
      rcases track_eye_movement_movement_history p
          (detect_blinks p s ((obs.left_ear + obs.right_ear) / 2) obs.now).1
          (obs.left.bind EyeObs.pupil, obs.right.bind EyeObs.pupil) with h | ⟨a, h⟩
      · rw [h, detect_blinks_movement_history]; exact Or.inl rfl
      · rw [h, detect_blinks_movement_history]; exact Or.inr ⟨a, rfl⟩

/-- C2 fails as stated: with an unexpected exception in the attention-score
    stage (after blink detection already ran), the returned result is indeed
    fully zeroed, but the persistent state is NOT as before the call — the
    frame's EAR sample has been appended to `ear_history`. -/
theorem C2_state_unchanged_counterexample :
    (process_frame defaultParams (initState 0) ⟨none, none, 1/10, 1/10, 0⟩
        (some Stage.attention)).2 = zeroedResult ∧
    (process_frame defaultParams (initState 0) ⟨none, none, 1/10, 1/10, 0⟩
        (some Stage.attention)).1.ear_history ≠ (initState 0).ear_history := by
  constructor
  · rfl
  · have h1 : (process_frame defaultParams (initState 0) ⟨none, none, 1/10, 1/10, 0⟩
        (some Stage.attention)).1 =
        (track_eye_movement defaultParams
          (detect_blinks defaultParams (initState 0) ((1/10 + 1/10) / 2) 0).1
          (none, none)).1 := rfl
    rw [h1, track_eye_movement_ear_history, detect_blinks_ear_history]
    simp [initState, dequeAppend]

/-- C2 amended: a stage fault is caught and converted into the fully-zeroed
    result (eyes absent, attention 0, flags false, no gaze/movement keys)
    without propagating; the persistent state keeps the updates of the stages
    that completed before the fault — in particular a fault in the
    image-processing stage or on entry to blink detection leaves the state
    exactly unchanged, while later faults retain the earlier stages' buffer
    updates. -/
theorem C2_fault_handling_amended (p : Params) (s : DetectorState) (obs : FrameObs)
    (st : Stage) :
    (process_frame p s obs (some st)).2 = zeroedResult ∧
    ((st = Stage.extract ∨ st = Stage.blinks) →
      (process_frame p s obs (some st)).1 = s) := by
  cases st
  · exact ⟨rfl, fun _ => rfl⟩
  · exact ⟨rfl, fun _ => rfl⟩
  · exact ⟨rfl, fun h => by rcases h with h | h <;> exact Stage.noConfusion h⟩
  · exact ⟨rfl, fun h => by rcases h with h | h <;> exact Stage.noConfusion h⟩

/-- Witness for C2 (amended): a fault in the image-processing stage yields
    the zeroed result and leaves the fresh detector state untouched. -/
theorem C2_fault_handling_amended_witness :
    (process_frame defaultParams (initState 0) ⟨none, none, 1/10, 1/10, 0⟩
        (some Stage.extract)).2 = zeroedResult ∧
    (process_frame defaultParams (initState 0) ⟨none, none, 1/10, 1/10, 0⟩
        (some Stage.extract)).1 = initState 0 :=
  ⟨(C2_fault_handling_amended defaultParams (initState 0)
      ⟨none, none, 1/10, 1/10, 0⟩ Stage.extract).1,
   (C2_fault_handling_amended defaultParams (initState 0)
      ⟨none, none, 1/10, 1/10, 0⟩ Stage.extract).2 (Or.inl rfl)⟩

/-! Helper lemmas for the ring-buffer capacity invariant. -/

lemma dequeAppend_length_le {α : Type} (cap : ℕ) (xs : List α) (x : α)
    (h : xs.length ≤ cap) (hcap : 0 < cap) :
    (dequeAppend cap xs x).length ≤ cap := by
  rw [dequeAppend]
  split_ifs with hlt
  · simp only [List.length_append, List.length_singleton]
    omega
  · simp only [List.length_append, List.length_tail, List.length_singleton]
    omega

lemma runOps_cons (p : Params) (op : Op) (rest : List Op) (s : DetectorState) :
    runOps p s (op :: rest) =
      runOps p
        (match op with
         | Op.frame obs fault => (process_frame p s obs fault).1
         | Op.calibrate g => calibrate_center_gaze s g)
        rest := rfl

lemma runOps_buffer_bounds (p : Params) :
    ∀ (ops : List Op) (s : DetectorState),
      s.ear_history.length ≤ 30 → s.gaze_history.length ≤ 60 →
      s.movement_history.length ≤ 90 →
      (runOps p s ops).ear_history.length ≤ 30 ∧
      (runOps p s ops).gaze_history.length ≤ 60 ∧
      (runOps p s ops).movement_history.length ≤ 90 := by
  intro ops
  induction ops with
  | nil => intro s h1 h2 h3; exact ⟨h1, h2, h3⟩
  | cons op rest ih =>
    intro s h1 h2 h3
    rw [runOps_cons]
    cases op with
    | frame obs fault =>
      rcases process_frame_histories p s obs fault with ⟨he, hg, hm⟩
      refine ih _ ?_ ?_ ?_
      · rcases he with h | h
        · rw [h]; exact h1
        · rw [h]; exact dequeAppend_length_le 30 _ _ h1 (by norm_num)
      · rw [hg]; exact h2
      · rcases hm with h | ⟨a, h⟩
        · rw [h]; exact h3
        · rw [h]; exact dequeAppend_length_le 90 _ _ h3 (by norm_num)
    | calibrate g => exact ih _ h1 h2 h3

lemma runOps_gaze_history (p : Params) :
    ∀ (ops : List Op) (s : DetectorState),
      (runOps p s ops).gaze_history = s.gaze_history := by
  intro ops
  induction ops with
  | nil => intro s; rfl
  | cons op rest ih =>
    intro s
    rw [runOps_cons]
    cases op with
    | frame obs fault =>
      rw [ih]
      exact (process_frame_histories p s obs fault).2.1
    | calibrate g => exact ih _

/-- C8: under every sequence of frame-processing (with or without stage
    faults) and calibration operations starting from a fresh detector, the
    three history ring buffers never exceed their capacities 30 / 60 / 90;
    and appending to a buffer that is exactly full drops the oldest sample
    while keeping the length at capacity. -/
theorem C8_ring_buffer_capacities :
    (∀ (p : Params) (t0 : ℚ) (ops : List Op),
       (runOps p (initState t0) ops).ear_history.length ≤ 30 ∧
       (runOps p (initState t0) ops).gaze_history.length ≤ 60 ∧
       (runOps p (initState t0) ops).movement_history.length ≤ 90) ∧
    (∀ (α : Type) (cap : ℕ) (xs : List α) (x : α), xs.length = cap → 0 < cap →
       dequeAppend cap xs x = xs.tail ++ [x] ∧
       (dequeAppend cap xs x).length = cap) := by
  constructor
  · intro p t0 ops
    exact runOps_buffer_bounds p ops (initState t0) (by simp [initState])
      (by simp [initState]) (by simp [initState])
  · intro α cap xs x h hcap
    constructor
    · rw [dequeAppend, if_neg (by omega)]
    · rw [dequeAppend, if_neg (by omega)]
      simp only [List.length_append, List.length_tail, List.length_singleton]
      omega

/-- Witness for C8: a full 3-capacity buffer [1, 2, 3] receives 4 and becomes
    [2, 3, 4], evicting the oldest element and staying at capacity. -/
theorem C8_ring_buffer_capacities_witness :
    dequeAppend 3 [(1 : ℚ), 2, 3] 4 = [(1 : ℚ), 2, 3].tail ++ [4] ∧
    (dequeAppend 3 [(1 : ℚ), 2, 3] 4).length = 3 :=
  C8_ring_buffer_capacities.2 ℚ 3 [1, 2, 3] 4 rfl (by norm_num)

/-- C10: no operation ever writes to `gaze_history`, so after any sequence of
    frame-processing and calibration operations it is still empty and the
    session summary's `gaze_pattern` is the empty list. -/
theorem C10_gaze_history_never_written (p : Params) (t0 : ℚ) (ops : List Op) :
    (runOps p (initState t0) ops).gaze_history = [] ∧
    (get_proctoring_summary (runOps p (initState t0) ops)).gaze_pattern = [] := by
  have h : (runOps p (initState t0) ops).gaze_history = [] :=
    runOps_gaze_history p ops (initState t0)
  refine ⟨h, ?_⟩
  simp [get_proctoring_summary, h]

end EyeDetectorModel
